import Mathlib

/-!
Shallow embedding of the `mistral-vibe` UI fragment:
`vibe/core/modes.py`, `vibe/cli/textual_ui/widgets/mode_indicator.py`
and `vibe/cli/textual_ui/widgets/question_app.py`.

Presentation-only effects (CSS classes, widget text updates, focus calls on
the host toolkit) are outside the embedded state; the state machine data
(selection indices, tabs, buffers, emitted messages) is embedded faithfully.
-/

namespace Vibe

/-! ## vibe/core/modes.py -/

/-- `ModeSafety(StrEnum)`: SAFE, NEUTRAL, YOLO. -/
inductive ModeSafety where
  | SAFE
  | NEUTRAL
  | YOLO
deriving DecidableEq, BEq, Fintype

/-- `AgentMode(StrEnum)`, declaration order DEFAULT, AUTO_APPROVE, PLAN. -/
inductive AgentMode where
  | DEFAULT
  | AUTO_APPROVE
  | PLAN
deriving DecidableEq, BEq, Fintype

/-- Python `str.lower()`, embedded character-wise. -/
def str_lower (s : String) : String :=
  String.mk (s.data.map Char.toLower)

/-- Python `str.strip()`: drop leading and trailing whitespace, embedded
character-wise. -/
def str_strip (s : String) : String :=
  String.mk (((s.data.dropWhile Char.isWhitespace).reverse.dropWhile
    Char.isWhitespace).reverse)

/-- The `StrEnum` string value of each variant (`auto()` lowercases the name). -/
def AgentMode.value : AgentMode → String
  | .DEFAULT => "default"
  | .AUTO_APPROVE => "auto_approve"
  | .PLAN => "plan"

/-- `AgentMode.from_string`: `cls(value.lower())`, i.e. look the lowercased
string up among the enum values, `None` when no variant matches. -/
def AgentMode.from_string (value : String) : Option AgentMode :=
  if str_lower value = AgentMode.DEFAULT.value then some AgentMode.DEFAULT
  else if str_lower value = AgentMode.AUTO_APPROVE.value then some AgentMode.AUTO_APPROVE
  else if str_lower value = AgentMode.PLAN.value then some AgentMode.PLAN
  else none

/-- `ModeConfig` dataclass. `config_overrides` is a string-keyed dict whose
only used value shape is a list of tool names. -/
structure ModeConfig where
  display_name : String
  description : String
  safety : ModeSafety := ModeSafety.NEUTRAL
  auto_approve : Bool := false
  config_overrides : List (String × List String) := []
deriving DecidableEq

/-- `PLAN_MODE_TOOLS = ["grep", "read_file", "todo"]`. -/
def PLAN_MODE_TOOLS : List String := ["grep", "read_file", "todo"]

/-- `MODE_CONFIGS`: the static mode table, embedded as an association list in
source entry order (DEFAULT, PLAN, AUTO_APPROVE). -/
def MODE_CONFIGS : List (AgentMode × ModeConfig) :=
  [ (AgentMode.DEFAULT,
     { display_name := "Default"
       description := "Requires approval for tool executions"
       safety := ModeSafety.NEUTRAL
       auto_approve := false }),
    (AgentMode.PLAN,
     { display_name := "Plan"
       description := "Read-only mode for exploration and planning"
       safety := ModeSafety.SAFE
       auto_approve := true
       config_overrides := [("enabled_tools", PLAN_MODE_TOOLS)] }),
    (AgentMode.AUTO_APPROVE,
     { display_name := "Auto Approve"
       description := "Auto-approves all tool executions"
       safety := ModeSafety.YOLO
       auto_approve := true }) ]

/-- Dict lookup `MODE_CONFIGS[mode]`. -/
def modeConfigLookup (mode : AgentMode) : Option ModeConfig :=
  MODE_CONFIGS.lookup mode

/-- `get_mode_order()`: the fixed cycle order, distinct from declaration order. -/
def get_mode_order : List AgentMode :=
  [AgentMode.AUTO_APPROVE, AgentMode.PLAN, AgentMode.DEFAULT]

/-- `next_mode(current)`: successor in `get_mode_order`, wrapping modulo the
length. (`order[...]` cannot be out of range since the index is taken mod
`len(order)`; `getD` supplies an unreachable fallback.) -/
def next_mode (current : AgentMode) : AgentMode :=
  get_mode_order.getD ((get_mode_order.indexOf current + 1) % get_mode_order.length)
    AgentMode.DEFAULT

/-! ## vibe/cli/textual_ui/widgets/mode_indicator.py -/

/-- `ModeIndicator` widget state: the stored mode. `can_focus` is set to
`False` in `__init__`; display text and CSS classes are presentational. -/
structure ModeIndicator where
  _mode : AgentMode
  can_focus : Bool
deriving DecidableEq

/-- The default value of the `mode` parameter of `ModeIndicator.__init__`. -/
def ModeIndicator.initDefaultMode : AgentMode := AgentMode.AUTO_APPROVE

/-- `ModeIndicator.__init__(mode)`. -/
def ModeIndicator.init (mode : AgentMode) : ModeIndicator :=
  { _mode := mode, can_focus := false }

/-- The `mode` property returns `self._mode`. -/
def ModeIndicator.mode (self : ModeIndicator) : AgentMode := self._mode

/-! ## vibe/cli/textual_ui/widgets/question_app.py — data model

`Choice` and `Question` come from the external `ask_user` module; the spec's
data contract gives them a label plus optional description, and a prompt
text plus a (possibly empty) choice sequence. -/

/-- `Choice { label, description? }`. -/
structure Choice where
  label : String
  description : Option String
deriving DecidableEq

/-- `Question { question, choices }`. -/
structure Question where
  question : String
  choices : List Choice
deriving DecidableEq

/-- `QuestionPanel` state. `text_input` is the value of the "Other"
`EscapableInput`; it is `none` until `compose` creates the input widget.
`option_widgets` / `other_cursor` and the rendered strings are
presentational and not part of the embedded state. -/
structure QuestionPanel where
  question_data : Question
  index : Nat
  choices : List Choice
  max_choices : Nat
  selected_option : Nat
  total_options : Nat
  text_input : Option String
  is_other_mode : Bool
deriving DecidableEq

/-- `QuestionPanel.__init__(question, index, max_choices)`.
(`question.choices or []` is the identity on a plain list: an absent/empty
choice set is the empty list.) -/
def QuestionPanel.init (question : Question) (index : Nat) (max_choices : Nat) :
    QuestionPanel :=
  { question_data := question
    index := index
    choices := question.choices
    max_choices := max_choices
    selected_option := 0
    total_options := question.choices.length + 1
    text_input := none
    is_other_mode := false }

/-- `compose`: creates the "Other" input widget with an empty value. -/
def QuestionPanel.composePanel (p : QuestionPanel) : QuestionPanel :=
  { p with text_input := some "" }

/-- `_update_options`: recomputes the rendered cursors (presentational) and,
when the input widget exists, sets `is_other_mode` to whether the "Other"
row is selected. Focus hand-off to the host toolkit is external. -/
def QuestionPanel.updateOptions (p : QuestionPanel) : QuestionPanel :=
  if p.text_input.isSome then
    { p with is_other_mode := p.selected_option == p.choices.length }
  else p

/-- `move_up`: `selected_option = (selected_option - 1) % total_options`
(Python modulo on a possibly negative left operand), then `_update_options`. -/
def QuestionPanel.move_up (p : QuestionPanel) : QuestionPanel :=
  QuestionPanel.updateOptions
    { p with selected_option :=
        (((p.selected_option : Int) - 1) % (p.total_options : Int)).toNat }

/-- `move_down`: `selected_option = (selected_option + 1) % total_options`,
then `_update_options`. -/
def QuestionPanel.move_down (p : QuestionPanel) : QuestionPanel :=
  QuestionPanel.updateOptions
    { p with selected_option := (p.selected_option + 1) % p.total_options }

/-- `get_answer()`: the selected choice's label, or the stripped "Other"
text (empty when the input widget does not exist yet). -/
def QuestionPanel.get_answer (p : QuestionPanel) : String × Bool :=
  if h : p.selected_option < p.choices.length then
    ((p.choices.get ⟨p.selected_option, h⟩).label, false)
  else
    match p.text_input with
    | some t => (str_strip t, true)
    | none => ("", true)

/-- Typing into the "Other" input replaces its value (possible only once the
widget exists). -/
def QuestionPanel.setText (p : QuestionPanel) (s : String) : QuestionPanel :=
  { p with text_input := p.text_input.map fun _ => s }

/-- The same panel with every choice's description removed; used to state
that `get_answer` never looks at descriptions. -/
def QuestionPanel.clearDescriptions (p : QuestionPanel) : QuestionPanel :=
  { p with choices := p.choices.map fun c => { c with description := none } }

/-- A panel as it stands when the app is running: constructed, composed and
mounted (`on_mount` runs `_update_options`). -/
def QuestionPanel.mountedInit (question : Question) (index : Nat)
    (max_choices : Nat) : QuestionPanel :=
  QuestionPanel.updateOptions
    (QuestionPanel.composePanel (QuestionPanel.init question index max_choices))

/-- One user-driven panel transition: arrow keys or editing the text buffer. -/
inductive PanelStep : QuestionPanel → QuestionPanel → Prop where
  | up (p : QuestionPanel) : PanelStep p p.move_up
  | down (p : QuestionPanel) : PanelStep p p.move_down
  | edit (p : QuestionPanel) (s : String) : PanelStep p (p.setText s)

/-- Panel states reachable in a running app (from the mounted panel). -/
def PanelReachable (question : Question) (index : Nat) (max_choices : Nat)
    (p : QuestionPanel) : Prop :=
  Relation.ReflTransGen PanelStep
    (QuestionPanel.mountedInit question index max_choices) p

/-! ## QuestionApp -/

/-- Events the `QuestionApp` posts outward. -/
inductive AppEvent where
  | answered (answers : List (String × String × Bool))
  | cancelled
deriving DecidableEq, BEq

/-- `max(len(q.choices) for q in questions)` with the 6 fallback when
`questions` is empty (Python `max` over a non-empty list of naturals folds
to the same value as `foldl max 0`). -/
def maxChoicesOf (questions : List Question) : Nat :=
  if questions.isEmpty then 6
  else (questions.map fun q => q.choices.length).foldl max 0

/-- `QuestionApp` state: the questions, the active tab and the panels.
Tab widgets, help text and display flags are presentational. -/
structure QuestionApp where
  questions : List Question
  current_tab : Nat
  panel_widgets : List QuestionPanel
deriving DecidableEq

/-- `compose`'s `for i, q in enumerate(questions)` loop over panels, each
constructed and then mounted. -/
def buildPanels (questions : List Question) (i : Nat) (max_choices : Nat) :
    List QuestionPanel :=
  match questions with
  | [] => []
  | q :: rest =>
      QuestionPanel.mountedInit q i max_choices :: buildPanels rest (i + 1) max_choices

/-- A freshly constructed, composed and mounted `QuestionApp`:
`current_tab = 0` and one mounted panel per question, in question order. -/
def QuestionApp.mountedInit (questions : List Question) : QuestionApp :=
  { questions := questions
    current_tab := 0
    panel_widgets := buildPanels questions 0 (maxChoicesOf questions) }

/-- `_switch_tab(new_tab)`: early return when the tab does not change;
otherwise update `current_tab` (tab highlighting, panel display flags and
focus are presentational). -/
def QuestionApp.switchTab (app : QuestionApp) (new_tab : Nat) : QuestionApp :=
  if new_tab = app.current_tab then app
  else { app with current_tab := new_tab }

/-- `action_next_tab`. -/
def QuestionApp.action_next_tab (app : QuestionApp) : QuestionApp :=
  if 1 < app.panel_widgets.length then
    app.switchTab ((app.current_tab + 1) % app.panel_widgets.length)
  else app

/-- `action_prev_tab` (Python modulo on a possibly negative left operand). -/
def QuestionApp.action_prev_tab (app : QuestionApp) : QuestionApp :=
  if 1 < app.panel_widgets.length then
    app.switchTab
      ((((app.current_tab : Int) - 1) % (app.panel_widgets.length : Int)).toNat)
  else app

/-- `_get_current_panel` guard plus in-place mutation of that panel. -/
def QuestionApp.mapCurrentPanel (app : QuestionApp)
    (f : QuestionPanel → QuestionPanel) : QuestionApp :=
  match app.panel_widgets[app.current_tab]? with
  | some panel =>
      { app with panel_widgets := app.panel_widgets.set app.current_tab (f panel) }
  | none => app

/-- `action_move_up`: delegate to the current panel. -/
def QuestionApp.action_move_up (app : QuestionApp) : QuestionApp :=
  app.mapCurrentPanel QuestionPanel.move_up

/-- `action_move_down`: delegate to the current panel. -/
def QuestionApp.action_move_down (app : QuestionApp) : QuestionApp :=
  app.mapCurrentPanel QuestionPanel.move_down

/-- Typing into the active panel's "Other" input. -/
def QuestionApp.edit_text (app : QuestionApp) (s : String) : QuestionApp :=
  app.mapCurrentPanel fun p => p.setText s

/-- `_do_submit`: collect `(question, answer, is_other)` per panel in order,
then post a single `Answered` event. The returned list is the list of events
posted by the call. -/
def QuestionApp.do_submit (app : QuestionApp) : List AppEvent :=
  [AppEvent.answered (app.panel_widgets.map fun panel =>
      (panel.question_data.question, panel.get_answer.1, panel.get_answer.2))]

/-- One user-driven app transition before submission: option navigation,
tab navigation, or editing the active "Other" buffer. -/
inductive AppStep : QuestionApp → QuestionApp → Prop where
  | moveUp (a : QuestionApp) : AppStep a a.action_move_up
  | moveDown (a : QuestionApp) : AppStep a a.action_move_down
  | nextTab (a : QuestionApp) : AppStep a a.action_next_tab
  | prevTab (a : QuestionApp) : AppStep a a.action_prev_tab
  | edit (a : QuestionApp) (s : String) : AppStep a (a.edit_text s)

/-- App states reachable from the mounted app for a given question list. -/
def AppReachable (questions : List Question) (app : QuestionApp) : Prop :=
  Relation.ReflTransGen AppStep (QuestionApp.mountedInit questions) app

/-- The answer record `submit` produces for a panel nobody ever visited:
the first choice's label, or the empty "Other" text when there are no
choices. -/
def defaultAnswer (q : Question) : String × String × Bool :=
  match q.choices with
  | [] => (q.question, "", true)
  | c :: _ => (q.question, c.label, false)

/-! ## Escape / cancellation message flow

The handler chain is embedded as the spec's explicit upward event channel:
each handler maps every message it receives to the messages it posts. -/

/-- `EscapableInput.EscapePressed` message. -/
inductive EscapePressedMsg where
  | mk
deriving DecidableEq

/-- `QuestionPanel.CancelRequested` message. -/
inductive CancelRequestedMsg where
  | mk
deriving DecidableEq

/-- Which element has keyboard focus when the key arrives. -/
inductive FocusTarget where
  | inputFocused
  | panelFocused
deriving DecidableEq

/-- `EscapableInput.on_key`: on escape, stop the event and post
`EscapePressed`; other keys post nothing. -/
def EscapableInput.on_key (key : String) : List EscapePressedMsg :=
  if key = "escape" then [EscapePressedMsg.mk] else []

/-- `QuestionPanel.on_escapable_input_escape_pressed`: each `EscapePressed`
from the input is relayed as one `CancelRequested`. -/
def QuestionPanel.on_escapable_input_escape_pressed
    (msgs : List EscapePressedMsg) : List CancelRequestedMsg :=
  msgs.map fun _ => CancelRequestedMsg.mk

/-- `QuestionPanel.on_key`: on escape with the panel focused, stop the event
and post `CancelRequested`. -/
def QuestionPanel.on_key_escape (key : String) : List CancelRequestedMsg :=
  if key = "escape" then [CancelRequestedMsg.mk] else []

/-- `QuestionApp.on_question_panel_cancel_requested`: each `CancelRequested`
becomes one outward `Cancelled` event. -/
def QuestionApp.on_question_panel_cancel_requested
    (msgs : List CancelRequestedMsg) : List AppEvent :=
  msgs.map fun _ => AppEvent.cancelled

/-- The full two-hop bubbling of one key press: input → panel → app when the
input has focus, panel → app when the panel has focus. `event.stop()` in the
first handler keeps any other escape handler from also seeing the key, so
the chain below is the complete set of posted events. -/
def escapeDispatch (focus : FocusTarget) (key : String) : List AppEvent :=
  match focus with
  | FocusTarget.inputFocused =>
      QuestionApp.on_question_panel_cancel_requested
        (QuestionPanel.on_escapable_input_escape_pressed (EscapableInput.on_key key))
  | FocusTarget.panelFocused =>
      QuestionApp.on_question_panel_cancel_requested
        (QuestionPanel.on_key_escape key)

/-! ## Theorems about the mode machinery -/

theorem from_string_char (s : String) (m : AgentMode) :
    AgentMode.from_string s = some m ↔ str_lower s = m.value := by
  unfold AgentMode.from_string
  split_ifs with h1 h2 h3 <;> cases m <;>
    simp_all [AgentMode.value]

/-- C5: `next_mode` follows the fixed cycle [AUTO_APPROVE, PLAN, DEFAULT],
distinct from declaration order [DEFAULT, AUTO_APPROVE, PLAN]; applying it
three times is the identity. -/
theorem next_mode_cycle :
    next_mode AgentMode.AUTO_APPROVE = AgentMode.PLAN ∧
    next_mode AgentMode.PLAN = AgentMode.DEFAULT ∧
    next_mode AgentMode.DEFAULT = AgentMode.AUTO_APPROVE ∧
    (∀ m : AgentMode, next_mode (next_mode (next_mode m)) = m) ∧
    decide (get_mode_order = [AgentMode.DEFAULT, AgentMode.AUTO_APPROVE, AgentMode.PLAN])
      = false := by
  refine ⟨by decide, by decide, by decide, ?_, by decide⟩
  intro m; cases m <;> decide

/-- C7: mode parsing is total and case-insensitive: `from_string s` returns
`some m` exactly when the lowercasing of `s` is `m`'s value, and returns
`none` (not a failure) otherwise; in particular "plan" and "PLAN" parse to
PLAN and "bogus" parses to `none`. -/
theorem from_string_total_case_insensitive :
    (∀ (s : String) (m : AgentMode),
        AgentMode.from_string s = some m ↔ str_lower s = m.value) ∧
    AgentMode.from_string "plan" = some AgentMode.PLAN ∧
    AgentMode.from_string "PLAN" = some AgentMode.PLAN ∧
    AgentMode.from_string "bogus" = none := by
  refine ⟨from_string_char, by decide, by decide, by decide⟩

/-- C9: the mode registry maps every variant to exactly one configuration;
PLAN's `config_overrides` are exactly the hard-coded `enabled_tools`
allow-list [grep, read_file, todo]; DEFAULT and AUTO_APPROVE carry empty
overrides. -/
theorem mode_registry_total_and_overrides :
    (∀ m : AgentMode, (modeConfigLookup m).isSome = true) ∧
    (∀ m : AgentMode, (MODE_CONFIGS.map Prod.fst).count m = 1) ∧
    (modeConfigLookup AgentMode.PLAN).map ModeConfig.config_overrides =
      some [("enabled_tools", ["grep", "read_file", "todo"])] ∧
    PLAN_MODE_TOOLS = ["grep", "read_file", "todo"] ∧
    (modeConfigLookup AgentMode.DEFAULT).map ModeConfig.config_overrides = some [] ∧
    (modeConfigLookup AgentMode.AUTO_APPROVE).map ModeConfig.config_overrides =
      some [] := by
  refine ⟨?_, ?_, by decide, by decide, by decide, by decide⟩
  · intro m; cases m <;> decide
  · intro m; cases m <;> decide

/-- C10: a `ModeIndicator` constructed with the default `mode` argument
starts in AUTO_APPROVE, whose configuration auto-approves and carries the
YOLO safety tier; the default is not DEFAULT. -/
theorem mode_indicator_default_is_auto_approve :
    (ModeIndicator.init ModeIndicator.initDefaultMode).mode = AgentMode.AUTO_APPROVE ∧
    (modeConfigLookup AgentMode.AUTO_APPROVE).map ModeConfig.auto_approve = some true ∧
    (modeConfigLookup AgentMode.AUTO_APPROVE).map ModeConfig.safety =
      some ModeSafety.YOLO ∧
    decide (ModeIndicator.initDefaultMode = AgentMode.DEFAULT) = false := by
  refine ⟨by decide, by decide, by decide, by decide⟩

/-! ## Theorems about the question panels -/

theorem str_strip_empty : str_strip "" = "" := by decide

theorem updateOptions_text_input (p : QuestionPanel) :
    p.updateOptions.text_input = p.text_input := by
  unfold QuestionPanel.updateOptions; split <;> rfl

theorem updateOptions_selected_option (p : QuestionPanel) :
    p.updateOptions.selected_option = p.selected_option := by
  unfold QuestionPanel.updateOptions; split <;> rfl

theorem updateOptions_total_options (p : QuestionPanel) :
    p.updateOptions.total_options = p.total_options := by
  unfold QuestionPanel.updateOptions; split <;> rfl

theorem updateOptions_choices (p : QuestionPanel) :
    p.updateOptions.choices = p.choices := by
  unfold QuestionPanel.updateOptions; split <;> rfl

theorem updateOptions_question_data (p : QuestionPanel) :
    p.updateOptions.question_data = p.question_data := by
  unfold QuestionPanel.updateOptions; split <;> rfl

theorem updateOptions_is_other_mode (p : QuestionPanel)
    (h : p.text_input.isSome = true) :
    p.updateOptions.is_other_mode = (p.selected_option == p.choices.length) := by
  unfold QuestionPanel.updateOptions; rw [if_pos h]

theorem move_down_selected_option (p : QuestionPanel) :
    p.move_down.selected_option = (p.selected_option + 1) % p.total_options := by
  unfold QuestionPanel.move_down; rw [updateOptions_selected_option]

theorem move_up_selected_option (p : QuestionPanel) :
    p.move_up.selected_option =
      (((p.selected_option : Int) - 1) % (p.total_options : Int)).toNat := by
  unfold QuestionPanel.move_up; rw [updateOptions_selected_option]

theorem move_down_total_options (p : QuestionPanel) :
    p.move_down.total_options = p.total_options := by
  unfold QuestionPanel.move_down; rw [updateOptions_total_options]

theorem move_up_total_options (p : QuestionPanel) :
    p.move_up.total_options = p.total_options := by
  unfold QuestionPanel.move_up; rw [updateOptions_total_options]

theorem move_down_text_input (p : QuestionPanel) :
    p.move_down.text_input = p.text_input := by
  unfold QuestionPanel.move_down; rw [updateOptions_text_input]

theorem move_up_text_input (p : QuestionPanel) :
    p.move_up.text_input = p.text_input := by
  unfold QuestionPanel.move_up; rw [updateOptions_text_input]

theorem updateOptions_invariant (p : QuestionPanel)
    (h : p.text_input.isSome = true) :
    (p.updateOptions.is_other_mode = true ↔
      p.updateOptions.selected_option = p.updateOptions.choices.length) := by
  rw [updateOptions_is_other_mode p h, updateOptions_selected_option,
    updateOptions_choices]
  simp

theorem move_up_invariant (p : QuestionPanel) (h : p.text_input.isSome = true) :
    (p.move_up.is_other_mode = true ↔
      p.move_up.selected_option = p.move_up.choices.length) := by
  unfold QuestionPanel.move_up
  exact updateOptions_invariant _ h

theorem move_down_invariant (p : QuestionPanel) (h : p.text_input.isSome = true) :
    (p.move_down.is_other_mode = true ↔
      p.move_down.selected_option = p.move_down.choices.length) := by
  unfold QuestionPanel.move_down
  exact updateOptions_invariant _ h

/-- C2: `get_answer` returns the selected choice's label with `false` when a
choice row is selected (never the description), and the stripped "Other"
buffer with `true` when the "Other" row is selected; it is insensitive to
choice descriptions. -/
theorem get_answer_spec (p : QuestionPanel) :
    (p.selected_option < p.choices.length →
      p.get_answer =
        ((p.choices.getD p.selected_option { label := "", description := none }).label,
          false)) ∧
    (p.selected_option = p.choices.length →
      p.get_answer = (str_strip (p.text_input.getD ""), true)) ∧
    p.clearDescriptions.get_answer = p.get_answer := by
  refine ⟨?_, ?_, ?_⟩
  · intro h
    unfold QuestionPanel.get_answer
    rw [dif_pos h, List.getD_eq_getElem _ _ h]
    rfl
  · intro h
    unfold QuestionPanel.get_answer
    rw [dif_neg (by omega)]
    cases htext : p.text_input with
    | none => simp [str_strip_empty]
    | some t => simp
  · unfold QuestionPanel.get_answer QuestionPanel.clearDescriptions
    by_cases h : p.selected_option < p.choices.length
    · rw [dif_pos h, dif_pos (by simpa using h)]
      simp
    · rw [dif_neg h, dif_neg (by simpa using h)]

/-- Witness for C2 at concrete panels: a choice-selected panel with a
described choice answers with the bare label, and an other-selected panel
whose buffer is `"  hi  "` answers with the trimmed text. -/
theorem get_answer_spec_witness :
    (QuestionPanel.mountedInit
        { question := "Q", choices := [{ label := "a", description := some "d" }] }
        0 6).get_answer = ("a", false) ∧
    ((QuestionPanel.mountedInit { question := "Q2", choices := [] } 0 6).setText
        "  hi  ").get_answer = ("hi", true) := by
  constructor
  · have h := (get_answer_spec (QuestionPanel.mountedInit
        { question := "Q", choices := [{ label := "a", description := some "d" }] }
        0 6)).1 (by decide)
    rw [h]; decide
  · have h := (get_answer_spec ((QuestionPanel.mountedInit
        { question := "Q2", choices := [] } 0 6).setText "  hi  ")).2.1 (by decide)
    rw [h]; decide

/-- C3 counterexample: immediately after `__init__` with an empty choice
list, `selected_option == len(choices)` holds but `is_other_mode` is still
`False`, so the claimed iff fails at that state. -/
theorem is_other_mode_init_counterexample :
    decide ((QuestionPanel.init { question := "Q", choices := [] } 0 6).is_other_mode
          = true ↔
        (QuestionPanel.init { question := "Q", choices := [] } 0 6).selected_option =
          (QuestionPanel.init { question := "Q", choices := [] } 0 6).choices.length)
      = false := by decide

/-- C3 (amended): in every panel state reachable once the panel is mounted
(`_update_options` has run), `is_other_mode` is true iff
`selected_option == len(choices)`; immediately after construction the iff
additionally holds whenever the question has at least one choice. -/
theorem is_other_mode_iff_selected :
    (∀ (q : Question) (i mc : Nat) (p : QuestionPanel),
        PanelReachable q i mc p →
        (p.is_other_mode = true ↔ p.selected_option = p.choices.length)) ∧
    (∀ (q : Question) (i mc : Nat), 0 < q.choices.length →
        ((QuestionPanel.init q i mc).is_other_mode = true ↔
          (QuestionPanel.init q i mc).selected_option =
            (QuestionPanel.init q i mc).choices.length)) := by
  constructor
  · intro q i mc p h
    suffices H : p.text_input.isSome = true ∧
        (p.is_other_mode = true ↔ p.selected_option = p.choices.length) from H.2
    induction h with
    | refl => exact ⟨rfl, updateOptions_invariant _ rfl⟩
    | tail hab hbc ih =>
        rename_i b c
        cases hbc with
        | up =>
            refine ⟨?_, move_up_invariant _ ih.1⟩
            rw [move_up_text_input]
            exact ih.1
        | down =>
            refine ⟨?_, move_down_invariant _ ih.1⟩
            rw [move_down_text_input]
            exact ih.1
        | edit s =>
            refine ⟨?_, ih.2⟩
            unfold QuestionPanel.setText
            obtain ⟨t, ht⟩ := Option.isSome_iff_exists.mp ih.1
            simp [ht]
  · intro q i mc h
    unfold QuestionPanel.init
    simp
    omega

/-- Witness for C3 (amended) at concrete inputs: the mounted zero-choice
panel satisfies the iff, and a freshly constructed one-choice panel does
too. -/
theorem is_other_mode_iff_selected_witness :
    ((QuestionPanel.mountedInit { question := "Q", choices := [] } 0 6).is_other_mode
        = true ↔
      (QuestionPanel.mountedInit { question := "Q", choices := [] } 0
          6).selected_option =
        (QuestionPanel.mountedInit { question := "Q", choices := [] } 0
            6).choices.length) ∧
    ((QuestionPanel.init { question := "Q", choices := [{ label := "a", description := none }] }
          0 6).is_other_mode = true ↔
      (QuestionPanel.init { question := "Q", choices := [{ label := "a", description := none }] }
          0 6).selected_option =
        (QuestionPanel.init { question := "Q", choices := [{ label := "a", description := none }] }
            0 6).choices.length) := by
  constructor
  · exact is_other_mode_iff_selected.1 { question := "Q", choices := [] } 0 6 _
      Relation.ReflTransGen.refl
  · exact is_other_mode_iff_selected.2
      { question := "Q", choices := [{ label := "a", description := none }] } 0 6
      (by decide)

theorem iter_move_down (p : QuestionPanel) (k : Nat) (hk : p.total_options = k)
    (_hk0 : 0 < k) (hs : p.selected_option < k) (n : Nat) :
    ((QuestionPanel.move_down)^[n] p).selected_option = (p.selected_option + n) % k ∧
    ((QuestionPanel.move_down)^[n] p).total_options = k := by
  induction n with
  | zero => exact ⟨(Nat.mod_eq_of_lt hs).symm, hk⟩
  | succ n ih =>
      rw [Function.iterate_succ_apply']
      refine ⟨?_, by rw [move_down_total_options, ih.2]⟩
      rw [move_down_selected_option, ih.2, ih.1, Nat.mod_add_mod, Nat.add_assoc]

theorem iter_move_up (p : QuestionPanel) (k : Nat) (hk : p.total_options = k)
    (hk0 : 0 < k) (hs : p.selected_option < k) (n : Nat) :
    (((QuestionPanel.move_up)^[n] p).selected_option : Int) =
      ((p.selected_option : Int) - (n : Int)) % (k : Int) ∧
    ((QuestionPanel.move_up)^[n] p).total_options = k := by
  have hkz : (k : Int) ≠ 0 := by exact_mod_cast hk0.ne'
  induction n with
  | zero =>
      refine ⟨?_, hk⟩
      rw [Function.iterate_zero_apply, Nat.cast_zero, sub_zero,
        Int.emod_eq_of_lt (by positivity) (by exact_mod_cast hs)]
  | succ n ih =>
      rw [Function.iterate_succ_apply']
      refine ⟨?_, by rw [move_up_total_options, ih.2]⟩
      rw [move_up_selected_option, ih.2,
        Int.toNat_of_nonneg (Int.emod_nonneg _ hkz), ih.1]
      conv_lhs => rw [Int.sub_emod]
      rw [Int.emod_emod_of_dvd _ dvd_rfl, ← Int.sub_emod]
      congr 1
      push_cast
      ring

/-- C4: from any in-range start, `n` `move_down` calls land on
`(start + n) % k` and `n` `move_up` calls land on `(start - n) mod k`
(Python signed modulo); `selected_option` never leaves `[0, k)`, and with
`k = 1` (a question with zero choices) both moves keep it at `0`. -/
theorem move_navigation_wraps (p : QuestionPanel) (k n : Nat)
    (hk : p.total_options = k) (hk0 : 0 < k)
    (hs : p.selected_option < k) :
    ((QuestionPanel.move_down)^[n] p).selected_option = (p.selected_option + n) % k ∧
    (((QuestionPanel.move_up)^[n] p).selected_option : Int) =
      ((p.selected_option : Int) - (n : Int)) % (k : Int) ∧
    ((QuestionPanel.move_down)^[n] p).selected_option < k ∧
    ((QuestionPanel.move_up)^[n] p).selected_option < k ∧
    (k = 1 → ((QuestionPanel.move_down)^[n] p).selected_option = 0 ∧
      ((QuestionPanel.move_up)^[n] p).selected_option = 0) := by
  have hdown := iter_move_down p k hk hk0 hs n
  have hup := iter_move_up p k hk hk0 hs n
  have hupr : ((QuestionPanel.move_up)^[n] p).selected_option < k := by
    have hlt : ((p.selected_option : Int) - (n : Int)) % (k : Int) < (k : Int) :=
      Int.emod_lt_of_pos _ (by exact_mod_cast hk0)
    rw [← hup.1] at hlt
    exact_mod_cast hlt
  refine ⟨hdown.1, hup.1, by rw [hdown.1]; exact Nat.mod_lt _ hk0, hupr, ?_⟩
  intro hone
  subst hone
  exact ⟨by omega, by omega⟩

/-- Witness for C4 at a two-choice panel (`k = 3`) and `n = 4`. -/
theorem move_navigation_wraps_witness :
    ((QuestionPanel.move_down)^[4] (QuestionPanel.mountedInit
        { question := "Q",
          choices := [{ label := "a", description := none },
                      { label := "b", description := none }] } 0 6)).selected_option =
      ((QuestionPanel.mountedInit
        { question := "Q",
          choices := [{ label := "a", description := none },
                      { label := "b", description := none }] } 0 6).selected_option
        + 4) % 3 ∧
    (((QuestionPanel.move_up)^[4] (QuestionPanel.mountedInit
        { question := "Q",
          choices := [{ label := "a", description := none },
                      { label := "b", description := none }] } 0 6)).selected_option
        : Int) =
      (((QuestionPanel.mountedInit
        { question := "Q",
          choices := [{ label := "a", description := none },
                      { label := "b", description := none }] } 0 6).selected_option
        : Int) - (4 : Int)) % (3 : Int) := by
  have h := move_navigation_wraps (QuestionPanel.mountedInit
      { question := "Q",
        choices := [{ label := "a", description := none },
                    { label := "b", description := none }] } 0 6) 3 4
    (by decide) (by decide) (by decide)
  exact ⟨h.1, h.2.1⟩

/-- C6: a single escape press produces exactly one `Cancelled` event —
whether the free-text input or the panel itself has focus — and no
`Answered` event. -/
theorem escape_exactly_one_cancelled (f : FocusTarget) :
    escapeDispatch f "escape" = [AppEvent.cancelled] ∧
    (escapeDispatch f "escape").count AppEvent.cancelled = 1 ∧
    (escapeDispatch f "escape").countP
      (fun e => match e with
        | AppEvent.answered _ => true
        | AppEvent.cancelled => false) = 0 := by
  cases f <;> exact ⟨rfl, rfl, rfl⟩

/-! ## Theorems about the session controller -/

theorem switchTab_panel_widgets (app : QuestionApp) (t : Nat) :
    (app.switchTab t).panel_widgets = app.panel_widgets := by
  unfold QuestionApp.switchTab; split <;> rfl

theorem switchTab_current_tab (app : QuestionApp) (t : Nat) :
    (app.switchTab t).current_tab = t := by
  unfold QuestionApp.switchTab
  split
  · rename_i h; exact h.symm
  · rfl

theorem action_next_tab_panel_widgets (app : QuestionApp) :
    app.action_next_tab.panel_widgets = app.panel_widgets := by
  unfold QuestionApp.action_next_tab
  split
  · rw [switchTab_panel_widgets]
  · rfl

theorem action_prev_tab_panel_widgets (app : QuestionApp) :
    app.action_prev_tab.panel_widgets = app.panel_widgets := by
  unfold QuestionApp.action_prev_tab
  split
  · rw [switchTab_panel_widgets]
  · rfl

theorem action_next_tab_current (app : QuestionApp)
    (h : app.current_tab < app.panel_widgets.length) :
    app.action_next_tab.current_tab =
      (app.current_tab + 1) % app.panel_widgets.length := by
  unfold QuestionApp.action_next_tab
  split
  · rw [switchTab_current_tab]
  · rename_i hn
    have h1 : app.panel_widgets.length = 1 := by omega
    rw [h1]
    omega

theorem action_prev_tab_current (app : QuestionApp)
    (h : app.current_tab < app.panel_widgets.length) :
    (app.action_prev_tab.current_tab : Int) =
      ((app.current_tab : Int) - 1) % (app.panel_widgets.length : Int) := by
  unfold QuestionApp.action_prev_tab
  split
  · rename_i hn
    rw [switchTab_current_tab,
      Int.toNat_of_nonneg (Int.emod_nonneg _ (by exact_mod_cast (by omega : app.panel_widgets.length ≠ 0)))]
  · rename_i hn
    have h1 : app.panel_widgets.length = 1 := by omega
    have h2 : app.current_tab = 0 := by omega
    rw [h1, h2]
    decide

theorem iter_next_tab (app : QuestionApp)
    (h : app.current_tab < app.panel_widgets.length) (n : Nat) :
    ((QuestionApp.action_next_tab)^[n] app).current_tab =
      (app.current_tab + n) % app.panel_widgets.length ∧
    ((QuestionApp.action_next_tab)^[n] app).panel_widgets = app.panel_widgets := by
  have hl : 0 < app.panel_widgets.length := by omega
  induction n with
  | zero => exact ⟨(Nat.mod_eq_of_lt h).symm, rfl⟩
  | succ n ih =>
      rw [Function.iterate_succ_apply']
      have hcur : ((QuestionApp.action_next_tab)^[n] app).current_tab <
          ((QuestionApp.action_next_tab)^[n] app).panel_widgets.length := by
        rw [ih.1, ih.2]
        exact Nat.mod_lt _ hl
      refine ⟨?_, by rw [action_next_tab_panel_widgets, ih.2]⟩
      rw [action_next_tab_current _ hcur, ih.1, ih.2, Nat.mod_add_mod, Nat.add_assoc]

/-- C8: `next_tab`/`prev_tab` step `active_tab` by `±1` modulo the number of
panels (`prev` with Python signed modulo); `next_tab` iterated
`len(panels)` times is the identity on `active_tab`, and with a single
panel both actions leave the whole app unchanged. -/
theorem tab_navigation (app : QuestionApp)
    (hcur : app.current_tab < app.panel_widgets.length) :
    app.action_next_tab.current_tab =
      (app.current_tab + 1) % app.panel_widgets.length ∧
    (app.action_prev_tab.current_tab : Int) =
      ((app.current_tab : Int) - 1) % (app.panel_widgets.length : Int) ∧
    ((QuestionApp.action_next_tab)^[app.panel_widgets.length] app).current_tab =
      app.current_tab ∧
    (app.panel_widgets.length = 1 →
      app.action_next_tab = app ∧ app.action_prev_tab = app) := by
  refine ⟨action_next_tab_current app hcur, action_prev_tab_current app hcur, ?_, ?_⟩
  · rw [(iter_next_tab app hcur app.panel_widgets.length).1, Nat.add_mod_right,
      Nat.mod_eq_of_lt hcur]
  · intro h1
    constructor
    · unfold QuestionApp.action_next_tab
      rw [if_neg (by omega)]
    · unfold QuestionApp.action_prev_tab
      rw [if_neg (by omega)]

/-- Witness for C8 at a two-question app. -/
theorem tab_navigation_witness :
    (QuestionApp.mountedInit [{ question := "Q1", choices := [] },
        { question := "Q2", choices := [] }]).action_next_tab.current_tab =
      ((QuestionApp.mountedInit [{ question := "Q1", choices := [] },
          { question := "Q2", choices := [] }]).current_tab + 1) %
        (QuestionApp.mountedInit [{ question := "Q1", choices := [] },
            { question := "Q2", choices := [] }]).panel_widgets.length :=
  (tab_navigation _ (by decide)).1

theorem mountedInit_question_data (q : Question) (i mc : Nat) :
    (QuestionPanel.mountedInit q i mc).question_data = q := by
  unfold QuestionPanel.mountedInit
  rw [updateOptions_question_data]
  rfl

theorem mounted_get_answer (q : Question) (i mc : Nat) :
    (QuestionPanel.mountedInit q i mc).get_answer =
      match q.choices with
      | [] => ("", true)
      | c :: _ => (c.label, false) := by
  cases hc : q.choices with
  | nil =>
      simp [QuestionPanel.mountedInit, QuestionPanel.composePanel,
        QuestionPanel.init, QuestionPanel.updateOptions, QuestionPanel.get_answer,
        hc, str_strip_empty]
  | cons c rest =>
      simp [QuestionPanel.mountedInit, QuestionPanel.composePanel,
        QuestionPanel.init, QuestionPanel.updateOptions, QuestionPanel.get_answer,
        hc]

theorem buildPanels_map_question_data (qs : List Question) (i mc : Nat) :
    (buildPanels qs i mc).map (fun p => p.question_data) = qs := by
  induction qs generalizing i with
  | nil => rfl
  | cons q rest ih => simp [buildPanels, mountedInit_question_data, ih]

theorem buildPanels_map_record (qs : List Question) (i mc : Nat) :
    (buildPanels qs i mc).map (fun panel =>
      (panel.question_data.question, panel.get_answer.1, panel.get_answer.2)) =
      qs.map defaultAnswer := by
  induction qs generalizing i with
  | nil => rfl
  | cons q rest ih =>
      simp only [buildPanels, List.map_cons, ih]
      congr 1
      rw [mountedInit_question_data, mounted_get_answer]
      unfold defaultAnswer
      cases q.choices <;> rfl

theorem map_set_self_of_eq {α β : Type} (g : α → β) (l : List α) (i : Nat) (a : α)
    (h : i < l.length) (ha : g a = g (l.get ⟨i, h⟩)) :
    (l.set i a).map g = l.map g := by
  induction l generalizing i with
  | nil => simp at h
  | cons x xs ih =>
      cases i with
      | zero =>
          simp only [List.get] at ha
          simp [List.set, ha]
      | succ j =>
          simp only [List.get] at ha
          simp only [List.set, List.map_cons]
          rw [ih j (by simpa using h) ha]

theorem move_up_question_data (p : QuestionPanel) :
    p.move_up.question_data = p.question_data := by
  unfold QuestionPanel.move_up
  rw [updateOptions_question_data]

theorem move_down_question_data (p : QuestionPanel) :
    p.move_down.question_data = p.question_data := by
  unfold QuestionPanel.move_down
  rw [updateOptions_question_data]

theorem mapCurrentPanel_map_question_data (app : QuestionApp)
    (f : QuestionPanel → QuestionPanel)
    (hf : ∀ p : QuestionPanel, (f p).question_data = p.question_data) :
    (app.mapCurrentPanel f).panel_widgets.map (fun p => p.question_data) =
      app.panel_widgets.map (fun p => p.question_data) := by
  unfold QuestionApp.mapCurrentPanel
  cases hp : app.panel_widgets[app.current_tab]? with
  | none => rfl
  | some panel =>
      have hlt : app.current_tab < app.panel_widgets.length :=
        List.getElem?_eq_some_iff.mp hp |>.choose
      have hval : app.panel_widgets.get ⟨app.current_tab, hlt⟩ = panel := by
        have := List.getElem?_eq_some_iff.mp hp
        simpa [List.get_eq_getElem] using this.choose_spec
      exact map_set_self_of_eq _ _ _ _ hlt (by rw [hf, hval])

/-- C1: `submit` posts a single terminal `Answered` event that calls
`get_answer` on every panel in question order — one
`(question_text, answer_text, is_other)` record per question, for every
reachable app state and independently of the active tab; on a never-visited
app each panel contributes its first choice's label (`is_other = false`),
or the empty string with `is_other = true` when its question has zero
choices. -/
theorem submit_collects_all_answers :
    (∀ app : QuestionApp,
      app.do_submit = [AppEvent.answered (app.panel_widgets.map fun panel =>
        (panel.question_data.question, panel.get_answer.1, panel.get_answer.2))]) ∧
    (∀ (questions : List Question) (app : QuestionApp),
      AppReachable questions app →
      app.panel_widgets.map (fun p => p.question_data) = questions) ∧
    (∀ (questions : List Question) (t : Nat),
      QuestionApp.do_submit
          { QuestionApp.mountedInit questions with current_tab := t } =
        [AppEvent.answered (questions.map defaultAnswer)]) ∧
    QuestionApp.do_submit (QuestionApp.mountedInit
        [{ question := "Q1 text",
           choices := [{ label := "yes", description := none },
                       { label := "no", description := none }] },
         { question := "Q2 text", choices := [] }]) =
      [AppEvent.answered [("Q1 text", "yes", false), ("Q2 text", "", true)]] := by
  refine ⟨fun app => rfl, ?_, ?_, ?_⟩
  · intro questions app h
    induction h with
    | refl => exact buildPanels_map_question_data questions 0 _
    | tail hab hbc ih =>
        cases hbc with
        | moveUp =>
            rw [show QuestionApp.action_move_up = fun a =>
                QuestionApp.mapCurrentPanel a QuestionPanel.move_up from rfl]
            rw [mapCurrentPanel_map_question_data _ _ move_up_question_data, ih]
        | moveDown =>
            rw [show QuestionApp.action_move_down = fun a =>
                QuestionApp.mapCurrentPanel a QuestionPanel.move_down from rfl]
            rw [mapCurrentPanel_map_question_data _ _ move_down_question_data, ih]
        | nextTab => rw [action_next_tab_panel_widgets, ih]
        | prevTab => rw [action_prev_tab_panel_widgets, ih]
        | edit s =>
            rw [show ∀ a : QuestionApp, a.edit_text s =
                QuestionApp.mapCurrentPanel a (fun p => p.setText s) from fun a => rfl]
            rw [mapCurrentPanel_map_question_data _ (fun p => p.setText s)
              (fun p => rfl), ih]
  · intro questions t
    have hpw : ({ QuestionApp.mountedInit questions with current_tab := t}
        : QuestionApp).panel_widgets = buildPanels questions 0 (maxChoicesOf questions) :=
      rfl
    unfold QuestionApp.do_submit
    rw [hpw, buildPanels_map_record]
  · decide

/-- Witness for C1: the mounted one-question app is reachable (by the empty
step sequence) and its panels carry exactly its question. -/
theorem submit_collects_all_answers_witness :
    (QuestionApp.mountedInit [{ question := "Q", choices := [] }]).panel_widgets.map
        (fun p => p.question_data) = [{ question := "Q", choices := [] }] :=
  submit_collects_all_answers.2.1 _ _ Relation.ReflTransGen.refl

end Vibe
